import Mathlib

/-!
Verification of the Atlas point-forecast pipeline and its accuracy tracker.

The derived-quantity calculator, forecast aggregator and gist persistence
live in .github/scripts/atlas_modal.py; the accuracy evaluator lives in
.github/scripts/earth2_accuracy.py.  Python floats are modelled as real
numbers (the physical formulas use exp and sqrt) and, in the accuracy
module, as rationals (its arithmetic is ring arithmetic only, which keeps
every statement there decidable).  Python's round(x, n) is modelled as
rounding x * 10^n to the nearest integer (ties at half do not matter for
any statement below).  Date strings are kept as strings where only
equality is used, and calendar days are modelled as floor(hours / 24) of
an absolute hour count where day grouping is needed.
-/

/-! ## Derived quantity calculator (atlas_modal.py) -/

/-- Python round(x, 1) on the real model. -/
noncomputable def round1 (x : ℝ) : ℝ := ((round (x * 10) : ℤ) : ℝ) / 10

/-- atlas_modal.specific_to_relative_humidity (lines 63-82): specific
humidity (kg/kg), temperature (K) and pressure level (hPa) to relative
humidity in [0,100], via the Tetens saturation vapor pressure. -/
noncomputable def specific_to_relative_humidity (q t_kelvin p_hpa : ℝ) : ℝ :=
  let t_c := t_kelvin - 273.15
  let es := 6.112 * Real.exp (17.67 * t_c / (t_c + 243.5))
  let w := if q < 1 then q / (1 - q) else q
  let ws := if p_hpa > es then 0.622 * es / (p_hpa - es) else 1
  let rh := if ws > 0 then (w / ws) * 100 else 0
  max 0 (min 100 rh)

/-- Stated from the spec: saturation vapor pressure
es = 6.112 * exp(17.67 * Tc / (Tc + 243.5)), Tc in Celsius. -/
noncomputable def esSpec (t_kelvin : ℝ) : ℝ :=
  6.112 * Real.exp (17.67 * (t_kelvin - 273.15) / ((t_kelvin - 273.15) + 243.5))

/-- Stated from the spec: saturation mixing ratio
ws = 0.622 * es / (p - es) when p > es, else the sentinel 1.0. -/
noncomputable def wsSpec (t_kelvin p_hpa : ℝ) : ℝ :=
  if p_hpa > esSpec t_kelvin then 0.622 * esSpec t_kelvin / (p_hpa - esSpec t_kelvin) else 1

/-- atlas_modal.sundqvist_cf (lines 94-100, nested in estimate_cloud_cover):
per-level cloud fraction from relative humidity (percent) and a critical
threshold. -/
noncomputable def sundqvist_cf (rh_pct rh_crit : ℝ) : ℝ :=
  let rh := rh_pct / 100
  if rh ≤ rh_crit then 0
  else if rh ≥ 1 then 1
  else 1 - Real.sqrt (max 0 ((1 - rh) / (1 - rh_crit)))

/-- atlas_modal.estimate_cloud_cover (lines 85-116): three-level
maximum-random overlap with a dryness cap, result in percent rounded to
one decimal.  A missing level contributes cloud fraction 0. -/
noncomputable def estimate_cloud_cover
    (rh_850 rh_700 rh_500 : Option ℝ) (tcwv : Option ℝ) : ℝ :=
  let cf_low := match rh_850 with | some r => sundqvist_cf r 0.70 | none => 0
  let cf_mid := match rh_700 with | some r => sundqvist_cf r 0.60 | none => 0
  let cf_high := match rh_500 with | some r => sundqvist_cf r 0.50 | none => 0
  let total_cf := 1 - (1 - cf_low) * (1 - cf_mid) * (1 - cf_high)
  let total_cf :=
    match tcwv with
    | some t => if t < 8 then min total_cf 0.2 else total_cf
    | none => total_cf
  round1 (total_cf * 100)

/-- The cloud-fraction band fallthrough of
atlas_modal.cloud_cover_to_weather_code (lines 129-137).  The source has
an explicit `< 85` band and a final branch that both return 3. -/
noncomputable def cloudBands (cloud_pct : ℝ) : ℤ :=
  if cloud_pct < 10 then 0
  else if cloud_pct < 30 then 1
  else if cloud_pct < 60 then 2
  else if cloud_pct < 85 then 3
  else 3

/-- atlas_modal.cloud_cover_to_weather_code (lines 119-137): precipitation
first (tiers by magnitude), else cloud-fraction bands.  `tp = none`
models the Python default argument tp=None. -/
noncomputable def cloud_cover_to_weather_code (cloud_pct : ℝ) (tp : Option ℝ) : ℤ :=
  match tp with
  | some t =>
    if t > 1 then
      if t > 10 then 65
      else if t > 3 then 63
      else 61
    else cloudBands cloud_pct
  | none => cloudBands cloud_pct

/-- Stated from the spec: the cloud-fraction-banded classification,
<10 clear, <30 mainly clear, <60 partly cloudy, otherwise overcast. -/
noncomputable def bandedCodeSpec (cloud_pct : ℝ) : ℤ :=
  if cloud_pct < 10 then 0
  else if cloud_pct < 30 then 1
  else if cloud_pct < 60 then 2
  else 3

/-! ## Accuracy evaluator (earth2_accuracy.py)

Its arithmetic is modelled over the rationals, mirroring each dict the
script builds as a structure whose optional fields are the keys that can
be missing or None. -/

/-- Python round(x, 1) on the rational model. -/
def roundq1 (x : ℚ) : ℚ := ((round (x * 10) : ℤ) : ℚ) / 10

/-- Python round(x, 2) on the rational model. -/
def roundq2 (x : ℚ) : ℚ := ((round (x * 100) : ℤ) : ℚ) / 100

/-- The three fields whose error the accuracy run tracks (the list
["temp_high_f", "temp_low_f", "wind_max_mph"] at line 252). -/
inductive TrackedField
  | temp_high_f
  | temp_low_f
  | wind_max_mph
deriving DecidableEq

/-- The dict returned by earth2_accuracy.get_atlas_prediction
(lines 178-186), restricted to the fields read downstream. -/
structure AtlasPred where
  date : String
  temp_high_f : Option ℚ
  temp_low_f : Option ℚ
  wind_max_mph : Option ℚ
  wind_avg_mph : Option ℚ
deriving DecidableEq

/-- The dict returned by earth2_accuracy.fetch_stanford_actual
(lines 149-159), restricted to the fields read downstream. -/
structure Obs where
  date : String
  temp_high_f : Option ℚ
  temp_low_f : Option ℚ
  wind_max_mph : Option ℚ
deriving DecidableEq

def AtlasPred.get : AtlasPred → TrackedField → Option ℚ
  | p, .temp_high_f => p.temp_high_f
  | p, .temp_low_f => p.temp_low_f
  | p, .wind_max_mph => p.wind_max_mph

def Obs.get : Obs → TrackedField → Option ℚ
  | a, .temp_high_f => a.temp_high_f
  | a, .temp_low_f => a.temp_low_f
  | a, .wind_max_mph => a.wind_max_mph

/-- One AccuracyEntry of the log (main, lines 244-256): none in an error
field models the key being absent. -/
structure Entry where
  date : String
  actual : Option Obs
  atlas : Option AtlasPred
  atlas_temp_high_f_error : Option ℚ
  atlas_temp_low_f_error : Option ℚ
  atlas_wind_max_mph_error : Option ℚ
deriving DecidableEq

/-- Python l[-n:]. -/
def takeLast {α : Type} (n : ℕ) (l : List α) : List α := l.drop (l.length - n)

/-- The lookup actual_map[date] where actual_map is the dict
comprehension of calculate_mae (line 196): the last actual with a given
date wins. -/
def lookupActual (actuals : List Obs) (d : String) : Option Obs :=
  (actuals.filter (fun a => a.date = d)).getLast?

/-- One prediction's contribution to the error list of calculate_mae
(lines 198-205). -/
def predErr (field : TrackedField) (actuals : List Obs) (p : AtlasPred) : Option ℚ :=
  match lookupActual actuals p.date with
  | none => none
  | some a =>
    match p.get field, a.get field with
    | some pv, some av => some |pv - av|
    | _, _ => none

/-- earth2_accuracy.calculate_mae (lines 193-209). -/
def calculate_mae (predictions : List AtlasPred) (actuals : List Obs)
    (field : TrackedField) : Option ℚ :=
  let errors := predictions.filterMap (predErr field actuals)
  if errors = [] then none
  else some (roundq2 (errors.sum / (errors.length : ℚ)))

/-- The summary dict of main (lines 267-275); last_updated is wall-clock
time and is not modelled.  An outer none models an absent key ("atlas
MAE keys are only set when the window holds an atlas prediction and an
actual"). -/
structure Summary where
  total_days : ℕ
  atlas_days : ℕ
  atlas_temp_mae_14d : Option (Option ℚ)
  atlas_wind_mae_14d : Option (Option ℚ)
deriving DecidableEq

/-- The window-metric step of main (lines 262-275): restrict to the last
14 entries, keep the truthy atlas and actual dicts, and compute the two
MAE keys only when both lists are non-empty. -/
def buildSummary (accuracy_log : List Entry) : Summary :=
  let recent := takeLast 14 accuracy_log
  let atlas_preds := recent.filterMap (fun e => e.atlas)
  let actuals := recent.filterMap (fun e => e.actual)
  { total_days := accuracy_log.length
    atlas_days := atlas_preds.length
    atlas_temp_mae_14d :=
      if atlas_preds ≠ [] ∧ actuals ≠ [] then
        some (calculate_mae atlas_preds actuals .temp_high_f)
      else none
    atlas_wind_mae_14d :=
      if atlas_preds ≠ [] ∧ actuals ≠ [] then
        some (calculate_mae atlas_preds actuals .wind_max_mph)
      else none }

/-- The per-field error key of the new entry (main, lines 251-256),
present only when the atlas prediction exists and both values are
present. -/
def fieldError (actual : Obs) (atlas_pred : Option AtlasPred) (f : TrackedField) : Option ℚ :=
  match atlas_pred with
  | some p =>
    match actual.get f, p.get f with
    | some av, some pv => some (roundq1 |pv - av|)
    | _, _ => none
  | none => none

/-- The accuracy entry built by main (lines 244-256). -/
def mkEntry (yesterday : String) (actual : Obs) (atlas_pred : Option AtlasPred) : Entry :=
  { date := yesterday
    actual := some actual
    atlas := atlas_pred
    atlas_temp_high_f_error := fieldError actual atlas_pred .temp_high_f
    atlas_temp_low_f_error := fieldError actual atlas_pred .temp_low_f
    atlas_wind_max_mph_error := fieldError actual atlas_pred .wind_max_mph }

/-- The append-and-truncate step of main (lines 258-260): append the new
entry, keep the last 90. -/
def appendTruncate (accuracy_log : List Entry) (e : Entry) : List Entry :=
  takeLast 90 (accuracy_log ++ [e])

/-- main (lines 212-287) as a function of its external inputs: the
fetched actual (none models the empty dict), the cached atlas prediction
(none models the empty dict) and the parsed log.  none models the early
return when Stanford data is unavailable or has no temp_high_f;
otherwise the run appends one entry, truncates and summarises. -/
def mainRun (yesterday : String) (actual : Option Obs) (atlas_pred : Option AtlasPred)
    (accuracy_log : List Entry) : Option (List Entry × Summary) :=
  match actual with
  | none => none
  | some a =>
    if a.temp_high_f = none then none
    else
      let newLog := appendTruncate accuracy_log (mkEntry yesterday a atlas_pred)
      some (newLog, buildSummary newLog)

/-! ### Spec-side definitions for the rolling MAE (claim C1) -/

/-- Stated from the claim: a window entry's complete pair for a field —
both the predicted and the actual value recorded in that entry. -/
def completePair (field : TrackedField) (e : Entry) : Option (ℚ × ℚ) :=
  match e.atlas, e.actual with
  | some p, some a =>
    match p.get field, a.get field with
    | some pv, some av => some (pv, av)
    | _, _ => none
  | _, _ => none

/-- Stated from the claim: mean of |predicted - actual| over the
complete pairs of a window, none when no complete pair exists. -/
def pairsMAE (window : List Entry) (field : TrackedField) : Option ℚ :=
  let pairs := window.filterMap (completePair field)
  if pairs = [] then none
  else some (roundq2 ((pairs.map (fun pr => |pr.1 - pr.2|)).sum / (pairs.length : ℚ)))

/-- Stated from the claim: the rolling MAE of a field over the most
recent 14 entries of the log. -/
def windowFieldMAE (accuracy_log : List Entry) (field : TrackedField) : Option ℚ :=
  pairsMAE (takeLast 14 accuracy_log) field

/-- An entry whose inner atlas/actual dicts carry the entry's own date —
the shape every entry written by this script has. -/
def entryConsistent (e : Entry) : Bool :=
  (match e.atlas with | some p => p.date == e.date | none => true)
  && (match e.actual with | some a => a.date == e.date | none => true)

/-! ### Gist persistence (write_gist_file / push_to_gist) -/

/-- One observable step of a persistence attempt: an attempt numbered
from 0, or a fixed sleep in seconds. -/
inductive GistAction
  | attempt (n : ℕ)
  | sleep (secs : ℕ)
deriving DecidableEq

/-- The seconds slept along a trace. -/
def sleepsOf (l : List GistAction) : List ℕ :=
  l.filterMap (fun a => match a with | .sleep d => some d | _ => none)

/-- The attempts made along a trace. -/
def attemptsOf (l : List GistAction) : List ℕ :=
  l.filterMap (fun a => match a with | .attempt n => some n | _ => none)

/-- earth2_accuracy.write_gist_file (lines 40-52), its
`for attempt in range(3)` unrolled over the outcome s of each attempt:
try up to three times, stop at the first success, and return whether any
attempt succeeded.  The loop body contains no sleep. -/
def write_gist_file (s : ℕ → Bool) : List GistAction × Bool :=
  if s 0 then ([.attempt 0], true)
  else if s 1 then ([.attempt 0, .attempt 1], true)
  else if s 2 then ([.attempt 0, .attempt 1, .attempt 2], true)
  else ([.attempt 0, .attempt 1, .attempt 2], false)

/-- atlas_modal.push_to_gist (lines 296-312), its retry loop unrolled:
after every failed attempt (the last included) the code sleeps 5
seconds; the boolean records whether it printed success or the final
"All gist update attempts failed". -/
def push_to_gist (s : ℕ → Bool) : List GistAction × Bool :=
  if s 0 then ([.attempt 0], true)
  else if s 1 then ([.attempt 0, .sleep 5, .attempt 1], true)
  else if s 2 then ([.attempt 0, .sleep 5, .attempt 1, .sleep 5, .attempt 2], true)
  else ([.attempt 0, .sleep 5, .attempt 1, .sleep 5, .attempt 2, .sleep 5], false)

/-- The persistence tail of earth2_accuracy.main (lines 280-287) as
(write succeeded, final status line, process exit code): the result of
write_gist_file is discarded, the success line is printed
unconditionally, and main falls off the end (exit code 0) either way. -/
def mainPersist (gistIdSet : Bool) (s : ℕ → Bool) : Bool × String × ℕ :=
  if gistIdSet then ((write_gist_file s).2, ("Accuracy log updated", 0))
  else (false, ("FORECAST_GIST_ID not set, printing only", 0))

/-! ## Daily aggregator (atlas_modal.aggregate_daily) -/

/-- Python round(x, 2) on the real model. -/
noncomputable def round2 (x : ℝ) : ℝ := ((round (x * 100) : ℤ) : ℝ) / 100

/-- One entry of the per-step forecast list consumed by
aggregate_daily: keys that extract_palo_alto may leave out are
optional. -/
structure StepEntry where
  lead_hours : ℤ
  temp_f : Option ℝ
  wind_mph : Option ℝ
  pressure_inhg : Option ℝ
  cloud_pct : Option ℝ
  weather_code : Option ℤ

/-- The per-day accumulator dict of aggregate_daily (lines 230-249). -/
structure DayAcc where
  temps_f : List ℝ
  winds_mph : List ℝ
  pressures : List ℝ
  cloud_pcts : List ℝ
  weather_codes : List ℤ

def emptyDayAcc : DayAcc := ⟨[], [], [], [], []⟩

/-- Appending one step's present fields to a day's accumulator
(lines 240-249). -/
def addStep (d : DayAcc) (e : StepEntry) : DayAcc :=
  { temps_f := d.temps_f ++ e.temp_f.toList
    winds_mph := d.winds_mph ++ e.wind_mph.toList
    pressures := d.pressures ++ e.pressure_inhg.toList
    cloud_pcts := d.cloud_pcts ++ e.cloud_pct.toList
    weather_codes := d.weather_codes ++ e.weather_code.toList }

/-- Insert-or-update on the insertion-ordered day map (the Python dict
`daily`). -/
def insertStep : List (ℤ × DayAcc) → ℤ → StepEntry → List (ℤ × DayAcc)
  | [], k, e => [(k, addStep emptyDayAcc e)]
  | (k0, a) :: rest, k, e =>
    if k0 = k then (k0, addStep a e) :: rest
    else (k0, a) :: insertStep rest k e

/-- Python max over a non-empty list, none for []. -/
noncomputable def maxOf : List ℝ → Option ℝ
  | [] => none
  | t :: ts => some (ts.foldl max t)

/-- Python min over a non-empty list, none for []. -/
noncomputable def minOf : List ℝ → Option ℝ
  | [] => none
  | t :: ts => some (ts.foldl min t)

/-- One output record of aggregate_daily (lines 260-274).  Calendar days
are modelled as floor(absolute hours / 24); the output is sorted by this
key exactly as the source sorts its date strings. -/
structure DailySummary where
  date : ℤ
  temp_high_f : Option ℝ
  temp_low_f : Option ℝ
  temp_avg_f : Option ℝ
  wind_avg_mph : Option ℝ
  wind_max_mph : Option ℝ
  pressure_avg_inhg : Option ℝ
  cloud_avg_pct : Option ℝ
  weather_code : ℤ

/-- The reduction of one day group (lines 252-274), fallback weather
code 2 when the day has no cloud data. -/
noncomputable def mkDaily (day : ℤ) (d : DayAcc) : DailySummary :=
  let avg_cloud : Option ℝ :=
    if d.cloud_pcts = [] then none
    else some (round1 (d.cloud_pcts.sum / (d.cloud_pcts.length : ℝ)))
  { date := day
    temp_high_f := (maxOf d.temps_f).map round1
    temp_low_f := (minOf d.temps_f).map round1
    temp_avg_f :=
      if d.temps_f = [] then none
      else some (round1 (d.temps_f.sum / (d.temps_f.length : ℝ)))
    wind_avg_mph :=
      if d.winds_mph = [] then none
      else some (round1 (d.winds_mph.sum / (d.winds_mph.length : ℝ)))
    wind_max_mph := (maxOf d.winds_mph).map round1
    pressure_avg_inhg :=
      if d.pressures = [] then none
      else some (round2 (d.pressures.sum / (d.pressures.length : ℝ)))
    cloud_avg_pct := avg_cloud
    weather_code :=
      match avg_cloud with
      | some c => cloud_cover_to_weather_code c none
      | none => 2 }

/-- atlas_modal.aggregate_daily (lines 218-276): group the steps by the
calendar day of init time + lead hours, then emit the day summaries in
ascending day order. -/
noncomputable def aggregate_daily (init_hours : ℤ) (forecasts : List StepEntry) :
    List DailySummary :=
  let daily := forecasts.foldl
    (fun m e => insertStep m ((init_hours + e.lead_hours).fdiv 24) e) []
  ((daily.map Prod.fst).mergeSort (fun k1 k2 => k1 ≤ k2)).filterMap
    (fun k => (daily.lookup k).map (mkDaily k))

/-! ### Concrete records used by witnesses and counterexamples -/

def obsW : Obs :=
  { date := "2026-03-01", temp_high_f := some 70, temp_low_f := some 50,
    wind_max_mph := some 10 }

def entryW : Entry :=
  { date := "2026-03-01", actual := some obsW, atlas := none,
    atlas_temp_high_f_error := none, atlas_temp_low_f_error := none,
    atlas_wind_max_mph_error := none }

def predC : AtlasPred :=
  { date := "2026-03-01", temp_high_f := some 70, temp_low_f := some 50,
    wind_max_mph := some 12, wind_avg_mph := none }

def obsC1 : Obs :=
  { date := "2026-03-01", temp_high_f := some 71, temp_low_f := some 40,
    wind_max_mph := some 10 }

def obsC2 : Obs :=
  { date := "2026-03-01", temp_high_f := some 71, temp_low_f := some 45,
    wind_max_mph := some 10 }

/-! ## Theorems -/

lemma cloudBands_eq_bandedCodeSpec (c : ℝ) : cloudBands c = bandedCodeSpec c := by
  unfold cloudBands bandedCodeSpec
  split_ifs <;> rfl

/-- C4: for specific humidity q in [0,1), any temperature and positive
pressure, the relative humidity lies in [0,100] and equals the clamp of
100 * (q / (1 - q)) / ws, with ws the guarded saturation mixing ratio. -/
theorem C4_relative_humidity_bounds (q t p : ℝ)
    (hq0 : 0 ≤ q) (hq1 : q < 1) (hp : 0 < p) :
    (0 ≤ specific_to_relative_humidity q t p ∧
      specific_to_relative_humidity q t p ≤ 100) ∧
    specific_to_relative_humidity q t p
      = max 0 (min 100 (100 * (q / (1 - q)) / wsSpec t p)) := by
  have hes : 0 < 6.112 * Real.exp (17.67 * (t - 273.15) / ((t - 273.15) + 243.5)) := by
    positivity
  constructor
  · unfold specific_to_relative_humidity
    exact ⟨le_max_left _ _, max_le (by norm_num) (min_le_left _ _)⟩
  · simp only [specific_to_relative_humidity, wsSpec, esSpec]
    rw [if_pos hq1]
    by_cases hpe : p > 6.112 * Real.exp (17.67 * (t - 273.15) / ((t - 273.15) + 243.5))
    · rw [if_pos hpe]
      have hws : 0 < 0.622 * (6.112 * Real.exp (17.67 * (t - 273.15) / (t - 273.15 + 243.5)))
          / (p - 6.112 * Real.exp (17.67 * (t - 273.15) / (t - 273.15 + 243.5))) :=
        div_pos (by positivity) (by linarith)
      rw [if_pos hws]
      ring_nf
    · rw [if_neg hpe]
      rw [if_pos (by norm_num : (1:ℝ) > 0)]
      ring_nf

/-- C4 witness: the theorem at q = 0, T = 300 K, p = 850 hPa. -/
theorem C4_relative_humidity_bounds_witness :
    (0 ≤ specific_to_relative_humidity 0 300 850 ∧
      specific_to_relative_humidity 0 300 850 ≤ 100) ∧
    specific_to_relative_humidity 0 300 850
      = max 0 (min 100 (100 * ((0:ℝ) / (1 - 0)) / wsSpec 300 850)) :=
  C4_relative_humidity_bounds 0 300 850 (by norm_num) (by norm_num) (by norm_num)

/-- C5: for a critical threshold rc in (0,1) the Sundqvist cloud fraction
is monotone non-decreasing in RH (the percent input divided by 100) over
[0,1], vanishes at RH = rc and equals 1 at RH = 1. -/
theorem C5_sundqvist_monotone (rc : ℝ) (h0 : 0 < rc) (h1 : rc < 1) :
    (∀ p1 p2 : ℝ, 0 ≤ p1 → p1 ≤ p2 → p2 ≤ 100 →
      sundqvist_cf p1 rc ≤ sundqvist_cf p2 rc) ∧
    sundqvist_cf (100 * rc) rc = 0 ∧ sundqvist_cf 100 rc = 1 := by
  have hrc : (0:ℝ) < 1 - rc := by linarith
  refine ⟨?_, ?_, ?_⟩
  · intro p1 p2 _ h12 _
    simp only [sundqvist_cf]
    have hr12 : p1 / 100 ≤ p2 / 100 := by linarith
    by_cases hA : p1 / 100 ≤ rc
    · rw [if_pos hA]
      by_cases hB : p2 / 100 ≤ rc
      · rw [if_pos hB]
      · rw [if_neg hB]
        by_cases hC : p2 / 100 ≥ 1
        · rw [if_pos hC]; norm_num
        · rw [if_neg hC]
          have hx : (1 - p2 / 100) / (1 - rc) ≤ 1 := by
            rw [div_le_one hrc]
            push_neg at hB
            linarith
          have hs : Real.sqrt (max 0 ((1 - p2 / 100) / (1 - rc))) ≤ 1 :=
            Real.sqrt_le_one.mpr (max_le zero_le_one hx)
          linarith
    · rw [if_neg hA]
      have hB : ¬ p2 / 100 ≤ rc := fun h => hA (le_trans hr12 h)
      rw [if_neg hB]
      by_cases hC : p1 / 100 ≥ 1
      · rw [if_pos hC, if_pos (le_trans hC hr12)]
      · rw [if_neg hC]
        by_cases hD : p2 / 100 ≥ 1
        · rw [if_pos hD]
          have := Real.sqrt_nonneg (max 0 ((1 - p1 / 100) / (1 - rc)))
          linarith
        · rw [if_neg hD]
          have hmono : (1 - p2 / 100) / (1 - rc) ≤ (1 - p1 / 100) / (1 - rc) :=
            (div_le_div_iff_of_pos_right hrc).mpr (by linarith)
          have hs : Real.sqrt (max 0 ((1 - p2 / 100) / (1 - rc)))
              ≤ Real.sqrt (max 0 ((1 - p1 / 100) / (1 - rc))) :=
            Real.sqrt_le_sqrt (max_le_max le_rfl hmono)
          linarith
  · simp only [sundqvist_cf]
    rw [show (100:ℝ) * rc / 100 = rc by ring, if_pos le_rfl]
  · simp only [sundqvist_cf]
    rw [show (100:ℝ) / 100 = 1 by norm_num,
      if_neg (by linarith : ¬ (1:ℝ) ≤ rc), if_pos (le_refl (1:ℝ))]

/-- C5 witness: the theorem at rc = 1/2, with monotonicity instantiated
at the pair (30, 80). -/
theorem C5_sundqvist_monotone_witness :
    sundqvist_cf (100 * (1/2 : ℝ)) (1/2) = 0 ∧ sundqvist_cf 100 (1/2) = 1 ∧
    sundqvist_cf 30 (1/2) ≤ sundqvist_cf 80 (1/2) := by
  obtain ⟨hmono, hb0, hb1⟩ := C5_sundqvist_monotone (1/2) (by norm_num) (by norm_num)
  exact ⟨hb0, hb1, hmono 30 80 (by norm_num) (by norm_num) (by norm_num)⟩

lemma round1_le_twenty {x : ℝ} (hx : x ≤ 20) : round1 x ≤ 20 := by
  unfold round1
  have h1 : round (x * 10) ≤ 200 := by
    rw [round_eq]
    calc ⌊x * 10 + 1 / 2⌋ ≤ ⌊(200:ℝ) + 1 / 2⌋ := Int.floor_le_floor (by linarith)
      _ = 200 := by norm_num
  have h2 : ((round (x * 10) : ℤ) : ℝ) ≤ 200 := by exact_mod_cast h1
  linarith

/-- C6: whenever total column water vapor is present and below 8, the
estimated total cloud fraction is capped at 20 percent, whatever the
per-level relative humidities are. -/
theorem C6_dryness_cap (rh_850 rh_700 rh_500 : Option ℝ) (t : ℝ) (ht : t < 8) :
    estimate_cloud_cover rh_850 rh_700 rh_500 (some t) ≤ 20 := by
  simp only [estimate_cloud_cover]
  rw [if_pos ht]
  apply round1_le_twenty
  have h := min_le_right
    (1 - (1 - match rh_850 with | some r => sundqvist_cf r 0.70 | none => 0)
      * (1 - match rh_700 with | some r => sundqvist_cf r 0.60 | none => 0)
      * (1 - match rh_500 with | some r => sundqvist_cf r 0.50 | none => 0)) (0.2:ℝ)
  nlinarith [h]

/-- C6 witness: the theorem at an all-missing column with tcwv = 0. -/
theorem C6_dryness_cap_witness :
    estimate_cloud_cover none none none (some 0) ≤ 20 :=
  C6_dryness_cap none none none 0 (by norm_num)

/-- C7: the weather-code classifier checks precipitation first — above
1.0 it returns the magnitude-tiered precipitation code whatever the
cloud fraction (in particular 65 for precipitation 15 and cloud 0) — and
only otherwise the cloud-fraction-banded code. -/
theorem C7_weather_code_precedence :
    (∀ c t : ℝ, cloud_cover_to_weather_code c (some t)
        = if t > 1 then (if t > 10 then 65 else if t > 3 then 63 else 61)
          else bandedCodeSpec c) ∧
    cloud_cover_to_weather_code 0 (some 15) = 65 ∧
    (∀ c : ℝ, cloud_cover_to_weather_code c none = bandedCodeSpec c) := by
  refine ⟨fun c t => ?_, ?_, fun c => ?_⟩
  · simp only [cloud_cover_to_weather_code, cloudBands_eq_bandedCodeSpec]
  · simp only [cloud_cover_to_weather_code]
    rw [if_pos (by norm_num : (15:ℝ) > 1), if_pos (by norm_num : (15:ℝ) > 10)]
  · simp only [cloud_cover_to_weather_code, cloudBands_eq_bandedCodeSpec]

/-- C8: every record emitted by the daily aggregator carries the
cloud-band code of its own average cloud fraction, and the fixed
fallback code 2 when the day had no cloud data. -/
theorem C8_daily_weather_code (init_hours : ℤ) (forecasts : List StepEntry) :
    (aggregate_daily init_hours forecasts).Forall
      (fun d => d.weather_code =
        match d.cloud_avg_pct with
        | some c => bandedCodeSpec c
        | none => 2) := by
  rw [List.forall_iff_forall_mem]
  intro d hd
  simp only [aggregate_daily] at hd
  obtain ⟨k, _, hmap⟩ := List.mem_filterMap.mp hd
  obtain ⟨acc, _, rfl⟩ := Option.map_eq_some'.mp hmap
  simp only [mkDaily]
  by_cases hcl : acc.cloud_pcts = []
  · rw [if_pos hcl]
  · rw [if_neg hcl]
    exact cloudBands_eq_bandedCodeSpec _

/-- C2 (code-bug evidence): when every gist write attempt fails,
write_gist_file reports failure, yet the main flow still ends with the
success line "Accuracy log updated" and exit code 0. -/
theorem C2_write_failure_not_surfaced :
    (write_gist_file (fun _ => false)).2 = false ∧
    mainPersist true (fun _ => false) = (false, ("Accuracy log updated", 0)) :=
  ⟨rfl, rfl⟩

/-- C3 counterexample: with every attempt failing, the accuracy-log
write path sleeps not at all, while the forecast push path sleeps 5
seconds after each failed attempt — so it is false that every write path
retries with a fixed 5-second delay. -/
theorem C3_no_delay_counterexample :
    sleepsOf (write_gist_file (fun _ => false)).1 = [] ∧
    sleepsOf (push_to_gist (fun _ => false)).1 = [5, 5, 5] :=
  ⟨rfl, rfl⟩

/-- C3 (amended): both write paths make at most 3 attempts and report
failure exactly when all three fail; the forecast push sleeps a fixed 5
seconds after each failed attempt, the accuracy-log write never
sleeps. -/
theorem C3_retry_policy (s : ℕ → Bool) :
    (attemptsOf (write_gist_file s).1).length ≤ 3 ∧
    (attemptsOf (push_to_gist s).1).length ≤ 3 ∧
    sleepsOf (write_gist_file s).1 = [] ∧
    ((sleepsOf (push_to_gist s).1).all fun d => d == 5) = true ∧
    (write_gist_file s).2 = (s 0 || s 1 || s 2) ∧
    (push_to_gist s).2 = (s 0 || s 1 || s 2) := by
  cases h0 : s 0 <;> cases h1 : s 1 <;> cases h2 : s 2 <;>
    simp [write_gist_file, push_to_gist, attemptsOf, sleepsOf, h0, h1, h2]

/-- C9: the truncation step keeps the log at no more than 90 entries,
and appending to a full 90-entry log drops exactly the oldest entry and
keeps the new one at the end. -/
theorem C9_log_truncation (log : List Entry) (e : Entry) :
    (appendTruncate log e).length ≤ 90 ∧
    (log.length = 90 → appendTruncate log e = log.tail ++ [e]) := by
  constructor
  · simp only [appendTruncate, takeLast, List.length_drop]
    omega
  · intro h90
    cases log with
    | nil => simp at h90
    | cons x xs =>
      have hx : xs.length = 89 := by simpa using h90
      simp [appendTruncate, takeLast, hx]

/-- C9 witness: the theorem at a concrete full log of 90 entries. -/
theorem C9_log_truncation_witness :
    (List.replicate 90 entryW).length = 90 ∧
    appendTruncate (List.replicate 90 entryW) entryW
      = (List.replicate 90 entryW).tail ++ [entryW] :=
  ⟨by simp, (C9_log_truncation (List.replicate 90 entryW) entryW).2 (by simp)⟩

/-- C10: with ground truth present (with a temp high) but no archived
prediction, the run still appends an entry whose atlas field is null and
whose error keys are all absent; only a missing or temp-less actual
makes the run skip. -/
theorem C10_missing_prediction_still_logged (d : String) (a : Obs) (p : Option AtlasPred)
    (log log2 : List Entry) (h : a.temp_high_f ≠ none) :
    mainRun d (some a) none log
      = some (appendTruncate log (mkEntry d a none),
          buildSummary (appendTruncate log (mkEntry d a none))) ∧
    (mkEntry d a none).atlas = none ∧
    (mkEntry d a none).atlas_temp_high_f_error = none ∧
    (mkEntry d a none).atlas_temp_low_f_error = none ∧
    (mkEntry d a none).atlas_wind_max_mph_error = none ∧
    mainRun d none p log2 = none ∧
    (∀ a2 : Obs, a2.temp_high_f = none → mainRun d (some a2) p log2 = none) := by
  refine ⟨?_, rfl, rfl, rfl, rfl, rfl, fun a2 h2 => ?_⟩
  · simp only [mainRun]
    rw [if_neg h]
  · simp only [mainRun]
    rw [if_pos h2]

/-- C10 witness: the theorem at a concrete observation and empty logs. -/
theorem C10_missing_prediction_still_logged_witness :
    mainRun "2026-03-01" (some obsW) none []
      = some (appendTruncate [] (mkEntry "2026-03-01" obsW none),
          buildSummary (appendTruncate [] (mkEntry "2026-03-01" obsW none))) ∧
    (mkEntry "2026-03-01" obsW none).atlas = none ∧
    (mkEntry "2026-03-01" obsW none).atlas_temp_high_f_error = none ∧
    (mkEntry "2026-03-01" obsW none).atlas_temp_low_f_error = none ∧
    (mkEntry "2026-03-01" obsW none).atlas_wind_max_mph_error = none ∧
    mainRun "2026-03-01" none none [] = none ∧
    (∀ a2 : Obs, a2.temp_high_f = none → mainRun "2026-03-01" (some a2) none [] = none) :=
  C10_missing_prediction_still_logged "2026-03-01" obsW none [] [] (by decide)

/-! ### Claim C1: the rolling MAE -/

lemma entryConsistent_atlas {e : Entry} {p : AtlasPred}
    (he : entryConsistent e = true) (hp : e.atlas = some p) : p.date = e.date := by
  simp only [entryConsistent, hp, Bool.and_eq_true, beq_iff_eq] at he
  exact he.1

lemma entryConsistent_actual {e : Entry} {a : Obs}
    (he : entryConsistent e = true) (ha : e.actual = some a) : a.date = e.date := by
  simp only [entryConsistent, ha, Bool.and_eq_true, beq_iff_eq] at he
  exact he.2

lemma atlas_date_mem {W : List Entry} (hall : W.all entryConsistent = true)
    {p : AtlasPred} (hp : p ∈ W.filterMap (fun x => x.atlas)) :
    p.date ∈ W.map (fun x => x.date) := by
  obtain ⟨e, heW, hea⟩ := List.mem_filterMap.mp hp
  rw [entryConsistent_atlas (List.all_eq_true.mp hall e heW) hea]
  exact List.mem_map_of_mem _ heW

lemma actual_date_mem {W : List Entry} (hall : W.all entryConsistent = true)
    {a : Obs} (ha : a ∈ W.filterMap (fun x => x.actual)) :
    a.date ∈ W.map (fun x => x.date) := by
  obtain ⟨e, heW, hea⟩ := List.mem_filterMap.mp ha
  rw [entryConsistent_actual (List.all_eq_true.mp hall e heW) hea]
  exact List.mem_map_of_mem _ heW

lemma lookupActual_cons_ne (a : Obs) (l : List Obs) (d : String)
    (h : ¬ a.date = d) : lookupActual (a :: l) d = lookupActual l d := by
  simp [lookupActual, List.filter_cons, h]

lemma lookupActual_eq_none (l : List Obs) (d : String)
    (h : ∀ x ∈ l, ¬ x.date = d) : lookupActual l d = none := by
  have h0 : l.filter (fun x => x.date = d) = [] :=
    List.filter_eq_nil_iff.mpr (by intro x hx; simpa using h x hx)
  simp [lookupActual, h0]

lemma lookupActual_cons_self (a : Obs) (l : List Obs)
    (h : ∀ x ∈ l, ¬ x.date = a.date) : lookupActual (a :: l) a.date = some a := by
  have h0 : l.filter (fun x => x.date = a.date) = [] :=
    List.filter_eq_nil_iff.mpr (by intro x hx; simpa using h x hx)
  simp [lookupActual, List.filter_cons, h0]

/-- With one consistent entry per date, the error list that
calculate_mae builds out of the window's atlas and actual lists is
exactly the per-entry complete-pair list mapped through the absolute
error. -/
lemma errors_eq_pairs (f : TrackedField) :
    ∀ W : List Entry, W.all entryConsistent = true →
      (W.map (fun x => x.date)).Nodup →
      (W.filterMap (fun x => x.atlas)).filterMap
          (predErr f (W.filterMap (fun x => x.actual)))
        = (W.filterMap (completePair f)).map (fun pr => |pr.1 - pr.2|) := by
  intro W
  induction W with
  | nil => intro _ _; rfl
  | cons e W ih =>
    intro hall hnd
    have he : entryConsistent e = true :=
      List.all_eq_true.mp hall e (List.mem_cons_self e W)
    have hallW : W.all entryConsistent = true := by
      rw [List.all_eq_true]
      exact fun x hx => List.all_eq_true.mp hall x (List.mem_cons_of_mem e hx)
    rw [List.map_cons, List.nodup_cons] at hnd
    obtain ⟨hdne, hndW⟩ := hnd
    have hbase := ih hallW hndW
    have hnone : ∀ x ∈ W.filterMap (fun x => x.actual), ¬ x.date = e.date := by
      intro x hx hEq
      exact hdne (hEq ▸ actual_date_mem hallW hx)
    have hcong : ∀ a : Obs, a.date = e.date →
        (W.filterMap (fun x => x.atlas)).filterMap
            (predErr f (a :: W.filterMap (fun x => x.actual)))
          = (W.filterMap (fun x => x.atlas)).filterMap
              (predErr f (W.filterMap (fun x => x.actual))) := by
      intro a had
      apply List.filterMap_congr
      intro p hp
      have hne : ¬ a.date = p.date := by
        rw [had]
        intro hEq
        exact hdne (hEq ▸ atlas_date_mem hallW hp)
      simp only [predErr, lookupActual_cons_ne a _ _ hne]
    cases hea : e.atlas with
    | none =>
      have hcp : completePair f e = none := by simp [completePair, hea]
      cases heac : e.actual with
      | none =>
        simp only [List.filterMap_cons, hea, heac, hcp]
        exact hbase
      | some a =>
        have had : a.date = e.date := entryConsistent_actual he heac
        simp only [List.filterMap_cons, hea, heac, hcp]
        rw [hcong a had]
        exact hbase
    | some p =>
      have hpd : p.date = e.date := entryConsistent_atlas he hea
      cases heac : e.actual with
      | none =>
        have hcp : completePair f e = none := by simp [completePair, hea, heac]
        have hlook : lookupActual (W.filterMap (fun x => x.actual)) p.date = none := by
          apply lookupActual_eq_none
          intro x hx
          rw [hpd]
          exact hnone x hx
        have hpe : predErr f (W.filterMap (fun x => x.actual)) p = none := by
          simp [predErr, hlook]
        simp only [List.filterMap_cons, hea, heac, hcp, hpe]
        exact hbase
      | some a =>
        have had : a.date = e.date := entryConsistent_actual he heac
        have hlook : lookupActual (a :: W.filterMap (fun x => x.actual)) p.date = some a := by
          rw [hpd, ← had]
          exact lookupActual_cons_self a _ (fun x hx => by rw [had]; exact hnone x hx)
        cases hgf : p.get f with
        | none =>
          have hcp : completePair f e = none := by simp [completePair, hea, heac, hgf]
          have hpe : predErr f (a :: W.filterMap (fun x => x.actual)) p = none := by
            simp [predErr, hlook, hgf]
          simp only [List.filterMap_cons, hea, heac, hcp, hpe]
          rw [hcong a had]
          exact hbase
        | some pv =>
          cases haf : a.get f with
          | none =>
            have hcp : completePair f e = none := by
              simp [completePair, hea, heac, hgf, haf]
            have hpe : predErr f (a :: W.filterMap (fun x => x.actual)) p = none := by
              simp [predErr, hlook, hgf, haf]
            simp only [List.filterMap_cons, hea, heac, hcp, hpe]
            rw [hcong a had]
            exact hbase
          | some av =>
            have hcp : completePair f e = some (pv, av) := by
              simp [completePair, hea, heac, hgf, haf]
            have hpe : predErr f (a :: W.filterMap (fun x => x.actual)) p
                = some |pv - av| := by
              simp [predErr, hlook, hgf, haf]
            simp only [List.filterMap_cons, hea, heac, hcp, hpe, List.map_cons]
            rw [hcong a had, hbase]

/-- calculate_mae over a consistent window's atlas/actual lists equals
the complete-pair MAE of the window. -/
lemma calculate_mae_eq_pairsMAE (W : List Entry)
    (hall : W.all entryConsistent = true)
    (hnd : (W.map (fun x => x.date)).Nodup) (f : TrackedField) :
    calculate_mae (W.filterMap (fun x => x.atlas))
        (W.filterMap (fun x => x.actual)) f
      = pairsMAE W f := by
  have h := errors_eq_pairs f W hall hnd
  simp only [calculate_mae, pairsMAE, h]
  by_cases hp : W.filterMap (completePair f) = []
  · simp [hp]
  · rw [if_neg (by simp [hp] :
        ¬ (W.filterMap (completePair f)).map (fun pr => |pr.1 - pr.2|) = []),
      if_neg hp]
    simp

/-- C1 counterexample: two one-entry logs that differ only in the
observed temperature-low value give the very same run summary even
though the rolling temperature-low MAE the claim describes differs
(10 versus 5) — so the run computes no rolling MAE for
temperature-low. -/
theorem C1_no_temp_low_mae_counterexample :
    buildSummary [mkEntry "2026-03-01" obsC1 (some predC)]
      = buildSummary [mkEntry "2026-03-01" obsC2 (some predC)] ∧
    windowFieldMAE [mkEntry "2026-03-01" obsC1 (some predC)] .temp_low_f = some 10 ∧
    windowFieldMAE [mkEntry "2026-03-01" obsC2 (some predC)] .temp_low_f = some 5 := by
  refine ⟨?_, ?_, ?_⟩ <;>
    norm_num [buildSummary, windowFieldMAE, pairsMAE, completePair, takeLast,
      mkEntry, fieldError, calculate_mae, predErr, lookupActual, obsC1, obsC2,
      predC, roundq1, roundq2, Obs.get, AtlasPred.get, round_ofNat,
      List.filterMap_cons, List.filter]

/-- C1 (amended): for a window whose entries carry their own date on the
inner records, one entry per date, the run's summary holds the rolling
MAE over the most recent 14 entries for temperature-high and for
wind-max — the mean of |predicted - actual| over the window's complete
pairs, undefined when no complete pair exists — and no others. -/
theorem C1_rolling_mae (log : List Entry)
    (hall : (takeLast 14 log).all entryConsistent = true)
    (hnd : ((takeLast 14 log).map (fun x => x.date)).Nodup) :
    Option.join (buildSummary log).atlas_temp_mae_14d
        = windowFieldMAE log .temp_high_f ∧
    Option.join (buildSummary log).atlas_wind_mae_14d
        = windowFieldMAE log .wind_max_mph := by
  have main : ∀ f : TrackedField,
      Option.join
        (if (takeLast 14 log).filterMap (fun x => x.atlas) ≠ [] ∧
            (takeLast 14 log).filterMap (fun x => x.actual) ≠ [] then
          some (calculate_mae ((takeLast 14 log).filterMap (fun x => x.atlas))
            ((takeLast 14 log).filterMap (fun x => x.actual)) f)
        else none) = windowFieldMAE log f := by
    intro f
    by_cases hg : (takeLast 14 log).filterMap (fun x => x.atlas) ≠ [] ∧
        (takeLast 14 log).filterMap (fun x => x.actual) ≠ []
    · rw [if_pos hg]
      exact calculate_mae_eq_pairsMAE _ hall hnd f
    · rw [if_neg hg]
      have hpairs : (takeLast 14 log).filterMap (completePair f) = [] := by
        apply List.filterMap_eq_nil_iff.mpr
        intro e he
        rcases not_and_or.mp hg with h | h
        · rw [not_not] at h
          have := List.filterMap_eq_nil_iff.mp h e he
          simp [completePair, this]
        · rw [not_not] at h
          have := List.filterMap_eq_nil_iff.mp h e he
          simp only [completePair, this]
          cases e.atlas <;> rfl
      simp [windowFieldMAE, pairsMAE, hpairs]
  simp only [buildSummary]
  exact ⟨main .temp_high_f, main .wind_max_mph⟩

/-- C1 witness: the amended theorem at a concrete one-entry log. -/
theorem C1_rolling_mae_witness :
    Option.join (buildSummary [mkEntry "2026-03-01" obsC1 (some predC)]).atlas_temp_mae_14d
        = windowFieldMAE [mkEntry "2026-03-01" obsC1 (some predC)] .temp_high_f ∧
    Option.join (buildSummary [mkEntry "2026-03-01" obsC1 (some predC)]).atlas_wind_mae_14d
        = windowFieldMAE [mkEntry "2026-03-01" obsC1 (some predC)] .wind_max_mph :=
  C1_rolling_mae [mkEntry "2026-03-01" obsC1 (some predC)] (by decide) (by decide)
